import Mathlib

/-!
Shallow embedding of the Clinical Referral Lab Management API
(src/main.py, src/schemas.py): the document store, the auth layer
(password hashing, JWT issue/verify, the current-user middleware and the
role gate) and the CRUD handlers the specification talks about.
MongoDB documents are modelled as association lists of string keys to a
JSON-like value type; ObjectId is a natural number rendered as a 24-digit
hexadecimal string; datetimes are abstract natural-number instants.
Floats (the catalog price) carry no arithmetic in the source, so they are
modelled by integers.
-/

namespace RefLab

/-- JSON-like value stored in a document field. -/
inductive Value where
  | null
  | str (s : String)
  | num (n : Int)
  | bool (b : Bool)
  | oid (n : Nat)
  | dtime (t : Nat)
  | strlist (xs : List String)
deriving DecidableEq, Repr

/-- A MongoDB document: an ordered association list, as a Python dict. -/
abbrev Doc := List (String × Value)

/-- Python dict lookup: first binding of the key, if any. -/
def Doc.get : Doc → String → Option Value
  | [], _ => none
  | (k', v) :: rest, k => if k' = k then some v else Doc.get rest k

/-- Python dict assignment d[k] = v: replace in place or append at the end. -/
def Doc.set : Doc → String → Value → Doc
  | [], k, v => [(k, v)]
  | (k', v') :: rest, k, v =>
      if k' = k then (k', v) :: rest else (k', v') :: Doc.set rest k v

/-- Python dict.setdefault: keep an existing binding (even a null one),
otherwise append the default. -/
def Doc.setdefault (d : Doc) (k : String) (v : Value) : Doc :=
  match d.get k with
  | some _ => d
  | none => d ++ [(k, v)]

/-- MongoDB $set with the fields of upd: apply each binding in order. -/
def Doc.mergeSet (d : Doc) (upd : Doc) : Doc :=
  upd.foldl (fun acc kv => acc.set kv.1 kv.2) d

/-- Remove every binding of a key (dict.pop for the unique-key dicts used). -/
def Doc.remove (d : Doc) (k : String) : Doc :=
  d.filter (fun kv => kv.1 ≠ k)

/-- Python truthiness of a stored value. -/
def truthy : Value → Bool
  | .null => false
  | .str s => s ≠ ""
  | .num n => n ≠ 0
  | .bool b => b
  | .oid _ => true
  | .dtime _ => true
  | .strlist xs => xs ≠ []

/-- Hexadecimal digit character (lower case), as str(ObjectId) prints. -/
def hexDigit (n : Nat) : Char :=
  if n < 10 then Char.ofNat (48 + n) else Char.ofNat (87 + n)

/-- Fixed-width big-endian hexadecimal digit list of a natural number. -/
def hexDigits : Nat → Nat → List Char
  | 0, _ => []
  | w + 1, n => hexDigits w (n / 16) ++ [hexDigit (n % 16)]

/-- str(ObjectId): the 24-character hexadecimal form. -/
def oidString (n : Nat) : String := ⟨hexDigits 24 n⟩

/-- Numeric value of one hexadecimal character, if it is one. -/
def hexVal (c : Char) : Option Nat :=
  if '0' ≤ c ∧ c ≤ '9' then some (c.toNat - 48)
  else if 'a' ≤ c ∧ c ≤ 'f' then some (c.toNat - 87)
  else if 'A' ≤ c ∧ c ≤ 'F' then some (c.toNat - 55)
  else none

/-- Accumulating hexadecimal string value; none on a non-hex character. -/
def hexAccum : List Char → Nat → Option Nat
  | [], acc => some acc
  | c :: cs, acc =>
      match hexVal c with
      | none => none
      | some d => hexAccum cs (acc * 16 + d)

/-- bson ObjectId(s): succeeds exactly on a 24-character hexadecimal
string; any other string raises InvalidId in the source. -/
def parseOid (s : String) : Option Nat :=
  if s.length = 24 then hexAccum s.data 0 else none

/-- Abstract isoformat rendering of a datetime instant. -/
def isoString (t : Nat) : String := "1970-01-01T00:00:" ++ toString t

/-- serialize_doc value normalization: datetimes become isoformat text. -/
def serializeVal : Value → Value
  | .dtime t => .str (isoString t)
  | v => v

/-- serialize_doc: rename the internal _id to a public string id field and
render datetimes as text (src/main.py lines 135-145). -/
def serialize_doc (d : Doc) : Doc :=
  let d' : Doc :=
    match d.get "_id" with
    | some (.oid n) => (d.remove "_id") ++ [("id", Value.str (oidString n))]
    | _ => d
  d'.map (fun kv => (kv.1, serializeVal kv.2))

/-- The five collections of the document store, plus a fresh-id counter
standing for ObjectId generation at insert time. -/
structure DB where
  user : List Doc := []
  patient : List Doc := []
  testcatalog : List Doc := []
  referral : List Doc := []
  testresult : List Doc := []
  nextId : Nat := 1
deriving DecidableEq, Repr

/-- find_one on an _id filter: first document carrying that ObjectId. -/
def findById : List Doc → Nat → Option Doc
  | [], _ => none
  | d :: ds, n => if Doc.get d "_id" = some (.oid n) then some d else findById ds n

/-- find_one on an email filter: first document carrying that email. -/
def findByEmail : List Doc → String → Option Doc
  | [], _ => none
  | d :: ds, e => if Doc.get d "email" = some (.str e) then some d else findByEmail ds e

/-- update_one / find_one_and_update with a $set: merge the update into
the first document whose _id matches; no-op when none matches. -/
def updateById : List Doc → Nat → Doc → List Doc
  | [], _, _ => []
  | d :: ds, n, upd =>
      if d.get "_id" = some (.oid n) then d.mergeSet upd :: ds
      else d :: updateById ds n upd

/-- Outcome of one request handler: a success document, an HTTPException,
or an uncaught Python exception (a crashed request, surfaced as a 500). -/
inductive HResult where
  | ok (d : Doc)
  | httpError (status : Nat) (detail : String)
  | crash (msg : String)
deriving DecidableEq, Repr

/-! ## Credential store and token service (src/main.py lines 26-132) -/

/-- Deterministic stand-in for the salted bcrypt hash; the claims rely
only on the contract that verify recognizes exactly the hash of the
supplied plaintext. -/
def hash_password (password : String) : String := "bcrypt-sha$" ++ password

/-- pwd_context.verify: does the stored hash come from this plaintext. -/
def verify_password (plain hashed : String) : Bool :=
  hashed == hash_password plain

/-- JWT claim set carried by a token: subject id, role, expiry instant. -/
structure Payload where
  sub : Option String := none
  role : Option String := none
  exp : Nat := 0
deriving DecidableEq, Repr

/-- Printable form of an optional claim, for the signature model. -/
def optClaim : Option String → String
  | none => "#none"
  | some s => "#some:" ++ s

/-- Fold a string into a number, the arithmetic core of the MAC model. -/
def strHash (s : String) : Nat :=
  s.data.foldl (fun a c => a * 131 + c.toNat) 7

/-- Model of the HMAC-SHA256 signature over the encoded payload: a
deterministic function of the signing secret and every claim. -/
def signPayload (secret : String) (p : Payload) : Nat :=
  ((strHash secret * 131 + strHash (optClaim p.sub)) * 131
      + strHash (optClaim p.role)) * 131 + p.exp

/-- A bearer token: either a signed claim set or an undecodable string. -/
inductive Token where
  | signed (p : Payload) (sig : Nat)
  | malformed (raw : String)
deriving DecidableEq, Repr

/-- jwt.encode with the process secret. -/
def jwt_encode (secret : String) (p : Payload) : Token :=
  .signed p (signPayload secret p)

/-- jwt.decode at instant now: none models the JWTError raised on a
malformed token, a signature mismatch, or an expiry in the past
(python-jose rejects exactly when exp is less than the current time). -/
def jwt_decode (secret : String) (now : Nat) : Token → Option Payload
  | .malformed _ => none
  | .signed p sig =>
      if sig = signPayload secret p then
        if p.exp < now then none else some p
      else none

/-- create_access_token for the login claims sub and role, with the
default 12-hour expiry window (720 minutes, counted in seconds). -/
def create_access_token (secret : String) (now : Nat) (sub role : String) : Token :=
  jwt_encode secret { sub := some sub, role := some role, exp := now + 720 * 60 }

/-! ## Access-control middleware (src/main.py lines 148-174) -/

/-- The generic 401 HTTPException of the middleware. -/
def credentialsError : HResult := .httpError 401 "Could not validate credentials"

/-- not user.get("is_active", True): active unless the flag is
present and falsy; a missing flag defaults to true. -/
def isActiveCheck (u : Doc) : Bool :=
  truthy ((Doc.get u "is_active").getD (.bool true))

/-- get_current_user: decode the bearer token, refetch the user document
by the subject id, reject a missing or inactive user, and return the
serialized user. ObjectId(user_id) on a non-hexadecimal subject raises
InvalidId outside the JWTError handler, crashing the request. -/
def get_current_user (db : DB) (secret : String) (now : Nat) (t : Token) : HResult :=
  match jwt_decode secret now t with
  | none => credentialsError
  | some p =>
      match p.sub, p.role with
      | some uid, some _ =>
          match parseOid uid with
          | none => .crash "InvalidId"
          | some oid =>
              match findById db.user oid with
              | none => credentialsError
              | some u =>
                  if isActiveCheck u then .ok (serialize_doc u)
                  else credentialsError
      | _, _ => credentialsError

/-- require_roles(*roles): none means the request proceeds with the
resolved user; otherwise the 403 Insufficient permissions error. -/
def require_roles (roles : List String) (u : Doc) : Option (Nat × String) :=
  match Doc.get u "role" with
  | some (.str r) => if r ∈ roles then none else some (403, "Insufficient permissions")
  | _ => some (403, "Insufficient permissions")

/-! ## Auth service endpoints (src/main.py lines 205-249, 380-395) -/

/-- String field access with a default, as dict.get(k, default). -/
def getStr (d : Doc) (k : String) (dflt : String) : String :=
  match Doc.get d k with
  | some (.str s) => s
  | _ => dflt

/-- POST /auth/login: look the user up by email, verify the password
hash, and mint a token carrying the user id and role; both failure paths
raise the one generic HTTPException. -/
def login (db : DB) (secret : String) (now : Nat) (username password : String) :
    Except (Nat × String) Token :=
  match findByEmail db.user username with
  | none => .error (400, "Incorrect email or password")
  | some u =>
      if verify_password password (getStr u "password_hash" "") then
        let sub :=
          match Doc.get u "_id" with
          | some (.oid n) => oidString n
          | _ => ""
        .ok (create_access_token secret now sub (getStr u "role" "viewer"))
      else .error (400, "Incorrect email or password")

/-- Number of stored users whose role field equals admin, the
count_documents filter of the seed endpoint. -/
def countAdmins (db : DB) : Nat :=
  (db.user.filter (fun d => decide (Doc.get d "role" = some (.str "admin")))).length

/-- The fixed default admin document the seed endpoint inserts. -/
def seedAdminDoc (id : Nat) (now : Nat) : Doc :=
  [("name", .str "Super Admin"),
   ("email", .str "admin@lab.local"),
   ("password_hash", .str (hash_password "admin123")),
   ("role", .str "admin"),
   ("is_active", .bool true),
   ("created_at", .dtime now),
   ("updated_at", .dtime now),
   ("_id", .oid id)]

/-- POST /auth/seed-admin: no-op when an admin-role user already exists,
otherwise insert the fixed default admin and report its credentials. -/
def seed_admin (db : DB) (now : Nat) : DB × Doc :=
  if countAdmins db > 0 then (db, [("message", .str "Admin exists")])
  else
    ({ db with user := db.user ++ [seedAdminDoc db.nextId now], nextId := db.nextId + 1 },
     [("message", .str "Admin seeded"),
      ("email", .str "admin@lab.local"),
      ("password", .str "admin123")])

/-! ## Input models (src/main.py lines 61-108): pydantic model_dump
includes every declared field, rendering an unset optional as null. -/

/-- An optional string field as dumped by pydantic. -/
def optVal : Option String → Value
  | none => .null
  | some s => .str s

/-- An optional integer field as dumped by pydantic. -/
def optNum : Option Int → Value
  | none => .null
  | some n => .num n

/-- PatientIn request body. -/
structure PatientIn where
  first_name : String
  last_name : String
  date_of_birth : Option String := none
  gender : Option String := none
  phone : Option String := none
  email : Option String := none
  hospital_id : Option String := none
deriving DecidableEq, Repr

/-- PatientIn.model_dump(). -/
def PatientIn.model_dump (b : PatientIn) : Doc :=
  [("first_name", .str b.first_name),
   ("last_name", .str b.last_name),
   ("date_of_birth", optVal b.date_of_birth),
   ("gender", optVal b.gender),
   ("phone", optVal b.phone),
   ("email", optVal b.email),
   ("hospital_id", optVal b.hospital_id)]

/-- TestCatalogIn request body; price carries no arithmetic and is
modelled by an integer. -/
structure TestCatalogIn where
  code : String
  name : String
  description : Option String := none
  sample_type : Option String := none
  price : Option Int := none
  tat_hours : Option Int := none
deriving DecidableEq, Repr

/-- TestCatalogIn.model_dump(). -/
def TestCatalogIn.model_dump (b : TestCatalogIn) : Doc :=
  [("code", .str b.code),
   ("name", .str b.name),
   ("description", optVal b.description),
   ("sample_type", optVal b.sample_type),
   ("price", optNum b.price),
   ("tat_hours", optNum b.tat_hours)]

/-- ReferralIn request body; it has no status field, and an unset
ordered_by dumps as null. -/
structure ReferralIn where
  patient_id : String
  hospital_id : Option String := none
  ordered_by : Option String := none
  tests : List String := []
  priority : String := "normal"
  notes : Option String := none
deriving DecidableEq, Repr

/-- ReferralIn.model_dump(). -/
def ReferralIn.model_dump (b : ReferralIn) : Doc :=
  [("patient_id", .str b.patient_id),
   ("hospital_id", optVal b.hospital_id),
   ("ordered_by", optVal b.ordered_by),
   ("tests", .strlist b.tests),
   ("priority", .str b.priority),
   ("notes", optVal b.notes)]

/-! ## Resource handlers (src/main.py lines 252-377) -/

/-- GET /patients/{patient_id}: parse the path id, fetch, 404 if absent. -/
def get_patient (db : DB) (patient_id : String) : HResult :=
  match parseOid patient_id with
  | none => .crash "InvalidId"
  | some oid =>
      match findById db.patient oid with
      | none => .httpError 404 "Patient not found"
      | some d => .ok (serialize_doc d)

/-- PUT /patients/{patient_id}: $set the full dumped body plus an
updated_at stamp, then refetch; 404 when the id matches nothing. -/
def update_patient (db : DB) (now : Nat) (patient_id : String) (body : PatientIn) :
    DB × HResult :=
  let upd := Doc.set body.model_dump "updated_at" (.dtime now)
  match parseOid patient_id with
  | none => (db, .crash "InvalidId")
  | some oid =>
      let db' := { db with patient := updateById db.patient oid upd }
      match findById db'.patient oid with
      | none => (db', .httpError 404 "Patient not found")
      | some d => (db', .ok (serialize_doc d))

/-- PUT /tests/{test_id}: same shape as the patient update. -/
def update_test (db : DB) (now : Nat) (test_id : String) (body : TestCatalogIn) :
    DB × HResult :=
  let upd := Doc.set body.model_dump "updated_at" (.dtime now)
  match parseOid test_id with
  | none => (db, .crash "InvalidId")
  | some oid =>
      let db' := { db with testcatalog := updateById db.testcatalog oid upd }
      match findById db'.testcatalog oid with
      | none => (db', .httpError 404 "Test not found")
      | some d => (db', .ok (serialize_doc d))

/-- POST /referrals: dump the body, setdefault status and ordered_by,
stamp timestamps, insert, return the serialized stored document. -/
def create_referral (db : DB) (now : Nat) (current_user : Doc) (body : ReferralIn) :
    DB × Doc :=
  let doc := body.model_dump
  let doc := doc.setdefault "status" (.str "pending")
  let doc := doc.setdefault "ordered_by" ((Doc.get current_user "id").getD .null)
  let doc := Doc.set (Doc.set doc "created_at" (.dtime now)) "updated_at" (.dtime now)
  let doc := Doc.set doc "_id" (.oid db.nextId)
  ({ db with referral := db.referral ++ [doc], nextId := db.nextId + 1 },
   serialize_doc doc)

/-- PUT /referrals/{ref_id}: the body is a raw field map merged by $set
after the updated_at stamp is written into it. -/
def update_referral (db : DB) (now : Nat) (ref_id : String) (upd : Doc) :
    DB × HResult :=
  let upd := Doc.set upd "updated_at" (.dtime now)
  match parseOid ref_id with
  | none => (db, .crash "InvalidId")
  | some oid =>
      let db' := { db with referral := updateById db.referral oid upd }
      match findById db'.referral oid with
      | none => (db', .httpError 404 "Referral not found")
      | some d => (db', .ok (serialize_doc d))

/-- PUT /results/{result_id}: same raw-map merge as the referral update. -/
def update_result (db : DB) (now : Nat) (result_id : String) (upd : Doc) :
    DB × HResult :=
  let upd := Doc.set upd "updated_at" (.dtime now)
  match parseOid result_id with
  | none => (db, .crash "InvalidId")
  | some oid =>
      let db' := { db with testresult := updateById db.testresult oid upd }
      match findById db'.testresult oid with
      | none => (db', .httpError 404 "Result not found")
      | some d => (db', .ok (serialize_doc d))

/-! ## The protected operations and their role gates -/

/-- The protected endpoints of src/main.py. -/
inductive ApiOp where
  | registerUser
  | createPatient | listPatients | getPatientById | updatePatientById | deletePatient
  | createTest | listTests | updateTestById | deleteTest
  | createReferralOp | listReferrals | updateReferralById
  | createResult | listResults | updateResultById
deriving DecidableEq, Repr

/-- The role list passed to require_roles at each endpoint decorator. -/
def allowedRolesOf : ApiOp → List String
  | .registerUser => ["admin"]
  | .createPatient => ["admin", "hospital_staff"]
  | .listPatients => ["admin", "hospital_staff", "lab_tech", "viewer"]
  | .getPatientById => ["admin", "hospital_staff", "lab_tech", "viewer"]
  | .updatePatientById => ["admin", "hospital_staff"]
  | .deletePatient => ["admin"]
  | .createTest => ["admin", "lab_tech"]
  | .listTests => ["admin", "hospital_staff", "lab_tech", "viewer"]
  | .updateTestById => ["admin", "lab_tech"]
  | .deleteTest => ["admin"]
  | .createReferralOp => ["admin", "hospital_staff"]
  | .listReferrals => ["admin", "hospital_staff", "lab_tech", "viewer"]
  | .updateReferralById => ["admin", "lab_tech"]
  | .createResult => ["admin", "lab_tech"]
  | .listResults => ["admin", "hospital_staff", "lab_tech", "viewer"]
  | .updateResultById => ["admin", "lab_tech"]

/-- The allowed-role table of section 4.4 of the specification, row by
row: register admin-only; Patient writes admin and hospital_staff with
delete admin-only; every read open to all four roles; TestCatalog writes
admin and lab_tech with delete admin-only; Referral create admin and
hospital_staff; Referral and TestResult update and TestResult create
admin and lab_tech. -/
def specAllowedRoles : ApiOp → List String
  | .registerUser => ["admin"]
  | .createPatient => ["admin", "hospital_staff"]
  | .updatePatientById => ["admin", "hospital_staff"]
  | .deletePatient => ["admin"]
  | .listPatients => ["admin", "hospital_staff", "lab_tech", "viewer"]
  | .getPatientById => ["admin", "hospital_staff", "lab_tech", "viewer"]
  | .listTests => ["admin", "hospital_staff", "lab_tech", "viewer"]
  | .listReferrals => ["admin", "hospital_staff", "lab_tech", "viewer"]
  | .listResults => ["admin", "hospital_staff", "lab_tech", "viewer"]
  | .createTest => ["admin", "lab_tech"]
  | .updateTestById => ["admin", "lab_tech"]
  | .deleteTest => ["admin"]
  | .createReferralOp => ["admin", "hospital_staff"]
  | .updateReferralById => ["admin", "lab_tech"]
  | .updateResultById => ["admin", "lab_tech"]
  | .createResult => ["admin", "lab_tech"]

/-! ## Dictionary and store lemmas -/

/-- Setting a key makes it readable. -/
theorem Doc.get_set_self (d : Doc) (k : String) (v : Value) :
    Doc.get (Doc.set d k v) k = some v := by
  induction d with
  | nil => simp [Doc.set, Doc.get]
  | cons kv rest ih =>
      obtain ⟨k1, v1⟩ := kv
      by_cases h : k1 = k
      · simp [Doc.set, Doc.get, h]
      · simp [Doc.set, Doc.get, h, ih]

/-- Setting one key leaves every other key unchanged. -/
theorem Doc.get_set_ne (d : Doc) (k' k : String) (v : Value) (h : k' ≠ k) :
    Doc.get (Doc.set d k' v) k = Doc.get d k := by
  induction d with
  | nil => simp [Doc.set, Doc.get, h]
  | cons kv rest ih =>
      obtain ⟨k1, v1⟩ := kv
      by_cases h1 : k1 = k'
      · subst h1; simp [Doc.set, Doc.get, h]
      · simp [Doc.set, Doc.get, h1, ih]

/-- A key outside the key list of a dictionary reads as none. -/
theorem Doc.get_none_of_not_mem (d : Doc) (k : String)
    (h : k ∉ d.map Prod.fst) : Doc.get d k = none := by
  induction d with
  | nil => rfl
  | cons kv rest ih =>
      obtain ⟨k1, v1⟩ := kv
      simp only [List.map_cons, List.mem_cons] at h
      push_neg at h
      have h1 : ¬ k1 = k := fun he => h.1 he.symm
      simp [Doc.get, h1, ih h.2]

/-- $set of a map that does not name a key leaves that key unchanged. -/
theorem Doc.get_mergeSet_none (upd : Doc) (k : String)
    (h : Doc.get upd k = none) :
    ∀ d : Doc, Doc.get (Doc.mergeSet d upd) k = Doc.get d k := by
  induction upd with
  | nil => intro d; rfl
  | cons kv rest ih =>
      intro d
      obtain ⟨k1, v1⟩ := kv
      have hk : k1 ≠ k := by
        intro he; simp [Doc.get, he] at h
      have hrest : Doc.get rest k = none := by
        simpa [Doc.get, hk] using h
      have : Doc.mergeSet d ((k1, v1) :: rest) = Doc.mergeSet (Doc.set d k1 v1) rest := by
        simp [Doc.mergeSet]
      rw [this, ih hrest, Doc.get_set_ne _ _ _ _ hk]

/-- $set of a duplicate-free map writes each named key to its value. -/
theorem Doc.get_mergeSet_some (upd : Doc) (k : String) (v : Value)
    (hn : (upd.map Prod.fst).Nodup) (h : Doc.get upd k = some v) :
    ∀ d : Doc, Doc.get (Doc.mergeSet d upd) k = some v := by
  induction upd with
  | nil => intro d; simp [Doc.get] at h
  | cons kv rest ih =>
      intro d
      obtain ⟨k1, v1⟩ := kv
      simp only [List.map_cons, List.nodup_cons] at hn
      have hstep : Doc.mergeSet d ((k1, v1) :: rest) = Doc.mergeSet (Doc.set d k1 v1) rest := by
        simp [Doc.mergeSet]
      by_cases hk : k1 = k
      · subst hk
        have hv : v1 = v := by simpa [Doc.get] using h
        subst hv
        have hrest : Doc.get rest k1 = none :=
          Doc.get_none_of_not_mem rest k1 hn.1
        rw [hstep, Doc.get_mergeSet_none rest k1 hrest, Doc.get_set_self]
      · have hrest : Doc.get rest k = some v := by simpa [Doc.get, hk] using h
        rw [hstep, ih hn.2 hrest]

/-- The key list after a set: unchanged when the key is present,
extended by the key when it is new. -/
theorem Doc.keys_set (d : Doc) (k : String) (v : Value) :
    (Doc.set d k v).map Prod.fst =
      (if k ∈ d.map Prod.fst then d.map Prod.fst else d.map Prod.fst ++ [k]) := by
  induction d with
  | nil => simp [Doc.set]
  | cons kv rest ih =>
      obtain ⟨k1, v1⟩ := kv
      by_cases h : k1 = k
      · subst h; simp [Doc.set]
      · have h' : ¬ k = k1 := fun he => h he.symm
        simp only [Doc.set, if_neg h, List.map_cons, ih, List.mem_cons]
        by_cases hm : k ∈ rest.map Prod.fst
        · simp [hm, h']
        · simp [hm, h']

/-- A set preserves duplicate-freeness of the key list. -/
theorem Doc.nodupKeys_set (d : Doc) (k : String) (v : Value)
    (h : (d.map Prod.fst).Nodup) : ((Doc.set d k v).map Prod.fst).Nodup := by
  rw [Doc.keys_set]
  by_cases hm : k ∈ d.map Prod.fst
  · simpa [hm] using h
  · simp only [if_neg hm]
    simp [List.nodup_append, h, hm]

/-- An update on an id that matches nothing is a no-op. -/
theorem updateById_of_findById_none (coll : List Doc) (oid : Nat) (upd : Doc)
    (h : findById coll oid = none) : updateById coll oid upd = coll := by
  induction coll with
  | nil => rfl
  | cons d ds ih =>
      by_cases hd : Doc.get d "_id" = some (.oid oid)
      · simp [findById, hd] at h
      · have h' : findById ds oid = none := by simpa [findById, hd] using h
        simp [updateById, hd, ih h']

/-- An update on an id that matches a first document merges the update
into exactly that document, which keeps its _id. -/
theorem findById_updateById (coll : List Doc) (oid : Nat) (upd : Doc) (doc : Doc)
    (hid : Doc.get upd "_id" = none)
    (h : findById coll oid = some doc) :
    findById (updateById coll oid upd) oid = some (Doc.mergeSet doc upd) := by
  induction coll with
  | nil => simp [findById] at h
  | cons d ds ih =>
      by_cases hd : Doc.get d "_id" = some (.oid oid)
      · have hdoc : d = doc := by simpa [findById, hd] using h
        subst hdoc
        have hmerged : Doc.get (Doc.mergeSet d upd) "_id" = some (.oid oid) := by
          rw [Doc.get_mergeSet_none upd "_id" hid, hd]
        simp [updateById, hd, findById, hmerged]
      · have h' : findById ds oid = some doc := by simpa [findById, hd] using h
        simp [updateById, hd, findById, ih h']

/-- Admin count across a single-document insert. -/
theorem countAdmins_append (db : DB) (d : Doc) :
    (((db.user ++ [d]).filter
        (fun x => decide (Doc.get x "role" = some (.str "admin")))).length) =
      countAdmins db +
        (if Doc.get d "role" = some (.str "admin") then 1 else 0) := by
  by_cases h : Doc.get d "role" = some (.str "admin")
  · simp [countAdmins, List.filter_append, h]
  · simp [countAdmins, List.filter_append, h]

/-! ## Concrete stores and requests used by witnesses -/

/-- A well-formed ObjectId string for the number 1. -/
def oid1s : String := "000000000000000000000001"

/-- A serialized hospital_staff user as the middleware attaches it. -/
def staffUser : Doc :=
  [("id", .str (oidString 2)), ("name", .str "Ann"), ("email", .str "a@h.x"),
   ("role", .str "hospital_staff"), ("is_active", .bool true)]

/-- A serialized viewer user. -/
def viewerUser : Doc :=
  [("id", .str (oidString 3)), ("name", .str "Vic"), ("email", .str "v@h.x"),
   ("role", .str "viewer"), ("is_active", .bool true)]

/-- A referral body that supplies neither status nor ordered_by. -/
def refBody : ReferralIn := { patient_id := oidString 7 }

/-- A store holding one patient with a phone number on record. -/
def dbPat : DB :=
  { patient := [[("_id", .oid 1), ("first_name", .str "Al"), ("last_name", .str "Po"),
                 ("phone", .str "123"), ("created_at", .dtime 3), ("updated_at", .dtime 3)]],
    nextId := 2 }

/-- A patient update body that does not supply the phone field. -/
def patBody : PatientIn := { first_name := "Al", last_name := "Po" }

/-! ## Claim theorems -/

/-- C1: every protected operation is gated by exactly the allowed-role
set of the section 4.4 table; a caller whose role is outside the set is
rejected with the 403 Forbidden error, and a caller whose role is in the
set passes the gate and the operation proceeds. -/
theorem role_gating :
    (∀ op : ApiOp, allowedRolesOf op = specAllowedRoles op) ∧
    (∀ (op : ApiOp) (u : Doc) (r : String), Doc.get u "role" = some (.str r) →
      (r ∈ specAllowedRoles op → require_roles (allowedRolesOf op) u = none) ∧
      (r ∉ specAllowedRoles op →
        require_roles (allowedRolesOf op) u = some (403, "Insufficient permissions"))) := by
  constructor
  · intro op; cases op <;> rfl
  · intro op u r hr
    have htab : allowedRolesOf op = specAllowedRoles op := by cases op <;> rfl
    constructor
    · intro hm; simp [require_roles, hr, htab, hm]
    · intro hm; simp [require_roles, hr, htab, hm]

/-- Witness for C1, the section 8 scenario: a viewer is rejected from
referral creation with 403 and passes the referral list gate. -/
theorem role_gating_check :
    require_roles (allowedRolesOf .createReferralOp) viewerUser
      = some (403, "Insufficient permissions") ∧
    require_roles (allowedRolesOf .listReferrals) viewerUser = none := by
  have h1 := (role_gating.2 .createReferralOp viewerUser "viewer" (by decide)).2 (by decide)
  have h2 := (role_gating.2 .listReferrals viewerUser "viewer" (by decide)).1 (by decide)
  exact ⟨h1, h2⟩

/-- C3: a login with an unknown email and a login with a known email but
a failing password verification raise the one generic error, with the
same status and the same message, so the response does not reveal which
field was wrong. -/
theorem login_no_enumeration :
    ∀ (db : DB) (secret : String) (now : Nat) (e1 pw1 e2 pw2 : String) (u : Doc),
      findByEmail db.user e1 = none →
      findByEmail db.user e2 = some u →
      verify_password pw2 (getStr u "password_hash" "") = false →
      login db secret now e1 pw1 = .error (400, "Incorrect email or password") ∧
      login db secret now e2 pw2 = .error (400, "Incorrect email or password") ∧
      login db secret now e1 pw1 = login db secret now e2 pw2 := by
  intro db secret now e1 pw1 e2 pw2 u h1 h2 h3
  refine ⟨?_, ?_, ?_⟩ <;> simp [login, h1, h2, h3]

/-- The stored user record behind the login witness. -/
def loginUser : Doc :=
  [("_id", .oid 9), ("name", .str "Lee"), ("email", .str "a@b.c"),
   ("password_hash", .str (hash_password "pw")), ("role", .str "viewer"),
   ("is_active", .bool true)]

/-- A store with one user for the login witness. -/
def dbLogin : DB := { user := [loginUser], nextId := 10 }

/-- Witness for C3 at a concrete store: unknown email versus wrong
password give the identical generic outcome. -/
theorem login_no_enumeration_check :
    login dbLogin "k" 0 "nobody@b.c" "pw" = .error (400, "Incorrect email or password") ∧
    login dbLogin "k" 0 "a@b.c" "wrong" = .error (400, "Incorrect email or password") ∧
    login dbLogin "k" 0 "nobody@b.c" "pw" = login dbLogin "k" 0 "a@b.c" "wrong" :=
  login_no_enumeration dbLogin "k" 0 "nobody@b.c" "pw" "a@b.c" "wrong" loginUser
    (by decide) (by decide) (by decide)

/-- C4 evaluation at the failing input: a referral body that supplies
neither status nor ordered_by, created by a caller whose serialized
document carries an id. The stored and returned referral has status
pending, but ordered_by stays null instead of the caller id, because
model_dump already binds ordered_by to null and dict.setdefault keeps an
existing null binding. -/
theorem create_referral_defaults_eval :
    refBody.ordered_by = none ∧
    Doc.get staffUser "id" = some (.str (oidString 2)) ∧
    Doc.get (create_referral ({} : DB) 9 staffUser refBody).2 "status"
      = some (.str "pending") ∧
    Doc.get (create_referral ({} : DB) 9 staffUser refBody).2 "ordered_by"
      = some Value.null ∧
    ((create_referral ({} : DB) 9 staffUser refBody).1.referral.head?).bind
        (fun d => Doc.get d "ordered_by") = some Value.null := by
  decide

/-- C5 evaluation at the failing inputs: a path identifier that is not a
24-character hexadecimal string makes ObjectId raise InvalidId, which no
handler catches, so the request crashes instead of answering 404 or 400;
a crash outcome differs from every HTTP error response. -/
theorem malformed_id_crash_eval :
    get_patient dbPat "not-a-valid-object-id-00" = .crash "InvalidId" ∧
    (update_referral dbPat 3 "xyz" []).2 = .crash "InvalidId" ∧
    ∀ (status : Nat) (detail : String),
      HResult.crash "InvalidId" ≠ HResult.httpError status detail := by
  refine ⟨by decide, by decide, ?_⟩
  intro status detail h
  exact HResult.noConfusion h

/-- C6 counterexample: the stored patient has phone 123, the update body
does not supply a phone, yet after the update the stored phone is null,
so a field not supplied in the update payload did not keep its prior
value. -/
theorem update_patient_overwrites_omitted_field :
    patBody.phone = none ∧
    (dbPat.patient.head?).bind (fun d => Doc.get d "phone") = some (.str "123") ∧
    ((update_patient dbPat 5 oid1s patBody).1.patient.head?).bind
        (fun d => Doc.get d "phone") = some Value.null := by
  decide

/-- Shared shape of every PUT handler: stamp updated_at into the update
map, $set it into the matched document; the merged document is found
again under the same id, keeps every key the map does not name, and
carries the fresh stamp. -/
theorem setThenMerge_spec (coll : List Doc) (oid : Nat) (upd doc : Doc) (now : Nat)
    (hn : (upd.map Prod.fst).Nodup) (hid : Doc.get upd "_id" = none)
    (hf : findById coll oid = some doc) :
    findById (updateById coll oid (Doc.set upd "updated_at" (.dtime now))) oid
      = some (Doc.mergeSet doc (Doc.set upd "updated_at" (.dtime now))) ∧
    (∀ k, k ≠ "updated_at" → Doc.get upd k = none →
      Doc.get (Doc.mergeSet doc (Doc.set upd "updated_at" (.dtime now))) k = Doc.get doc k) ∧
    (∀ k v, k ≠ "updated_at" → Doc.get upd k = some v →
      Doc.get (Doc.mergeSet doc (Doc.set upd "updated_at" (.dtime now))) k = some v) ∧
    Doc.get (Doc.mergeSet doc (Doc.set upd "updated_at" (.dtime now))) "updated_at"
      = some (.dtime now) := by
  have hts : ("updated_at" : String) ≠ "_id" := by decide
  have hid' : Doc.get (Doc.set upd "updated_at" (.dtime now)) "_id" = none := by
    rw [Doc.get_set_ne _ _ _ _ hts, hid]
  have hn' : ((Doc.set upd "updated_at" (.dtime now)).map Prod.fst).Nodup :=
    Doc.nodupKeys_set _ _ _ hn
  refine ⟨findById_updateById coll oid _ doc hid' hf, ?_, ?_, ?_⟩
  · intro k hk hnone
    have h1 : Doc.get (Doc.set upd "updated_at" (.dtime now)) k = none := by
      rw [Doc.get_set_ne _ _ _ _ (fun he => hk he.symm), hnone]
    exact Doc.get_mergeSet_none _ _ h1 doc
  · intro k v hk hsome
    have h1 : Doc.get (Doc.set upd "updated_at" (.dtime now)) k = some v := by
      rw [Doc.get_set_ne _ _ _ _ (fun he => hk he.symm), hsome]
    exact Doc.get_mergeSet_some _ _ _ hn' h1 doc
  · exact Doc.get_mergeSet_some _ _ _ hn' (Doc.get_set_self upd _ _) doc

/-- The key list of a stamped patient update payload. -/
def patientUpdateKeys : List String :=
  ["first_name", "last_name", "date_of_birth", "gender", "phone", "email",
   "hospital_id", "updated_at"]

/-- The key list of a stamped test-catalog update payload. -/
def testUpdateKeys : List String :=
  ["code", "name", "description", "sample_type", "price", "tat_hours", "updated_at"]

/-- A stamped patient body dumps to exactly the patient update keys. -/
theorem patient_upd_keys (b : PatientIn) (v : Value) :
    (Doc.set b.model_dump "updated_at" v).map Prod.fst = patientUpdateKeys := rfl

/-- A stamped catalog body dumps to exactly the catalog update keys. -/
theorem test_upd_keys (b : TestCatalogIn) (v : Value) :
    (Doc.set b.model_dump "updated_at" v).map Prod.fst = testUpdateKeys := rfl

/-- The key list of a dumped patient body. -/
theorem patient_dump_keys (b : PatientIn) :
    (b.model_dump).map Prod.fst =
      ["first_name", "last_name", "date_of_birth", "gender", "phone", "email",
       "hospital_id"] := rfl

/-- The key list of a dumped catalog body. -/
theorem test_dump_keys (b : TestCatalogIn) :
    (b.model_dump).map Prod.fst =
      ["code", "name", "description", "sample_type", "price", "tat_hours"] := rfl

/-- C6 amended: Referral and TestResult updates are partial-field merges
into the existing document, preserving every field the payload does not
name; Patient and TestCatalog updates $set the full dumped input model,
so only fields outside the input schema keep their prior value while
omitted optional input fields are overwritten; the updated_at stamp is
always written, for all four resource types. -/
theorem update_partial_merge_amended :
    ∀ (db : DB) (now : Nat) (idStr : String) (oid : Nat),
      parseOid idStr = some oid →
      (∀ upd doc : Doc, (upd.map Prod.fst).Nodup → Doc.get upd "_id" = none →
        findById db.referral oid = some doc →
        findById (update_referral db now idStr upd).1.referral oid
            = some (Doc.mergeSet doc (Doc.set upd "updated_at" (.dtime now))) ∧
          (∀ k, k ≠ "updated_at" → Doc.get upd k = none →
            Doc.get (Doc.mergeSet doc (Doc.set upd "updated_at" (.dtime now))) k
              = Doc.get doc k) ∧
          Doc.get (Doc.mergeSet doc (Doc.set upd "updated_at" (.dtime now))) "updated_at"
            = some (.dtime now)) ∧
      (∀ upd doc : Doc, (upd.map Prod.fst).Nodup → Doc.get upd "_id" = none →
        findById db.testresult oid = some doc →
        findById (update_result db now idStr upd).1.testresult oid
            = some (Doc.mergeSet doc (Doc.set upd "updated_at" (.dtime now))) ∧
          (∀ k, k ≠ "updated_at" → Doc.get upd k = none →
            Doc.get (Doc.mergeSet doc (Doc.set upd "updated_at" (.dtime now))) k
              = Doc.get doc k) ∧
          Doc.get (Doc.mergeSet doc (Doc.set upd "updated_at" (.dtime now))) "updated_at"
            = some (.dtime now)) ∧
      (∀ (b : PatientIn) (doc : Doc),
        findById db.patient oid = some doc →
        findById (update_patient db now idStr b).1.patient oid
            = some (Doc.mergeSet doc (Doc.set b.model_dump "updated_at" (.dtime now))) ∧
          (∀ k, k ∉ patientUpdateKeys →
            Doc.get (Doc.mergeSet doc (Doc.set b.model_dump "updated_at" (.dtime now))) k
              = Doc.get doc k) ∧
          Doc.get (Doc.mergeSet doc (Doc.set b.model_dump "updated_at" (.dtime now)))
              "updated_at" = some (.dtime now)) ∧
      (∀ (b : TestCatalogIn) (doc : Doc),
        findById db.testcatalog oid = some doc →
        findById (update_test db now idStr b).1.testcatalog oid
            = some (Doc.mergeSet doc (Doc.set b.model_dump "updated_at" (.dtime now))) ∧
          (∀ k, k ∉ testUpdateKeys →
            Doc.get (Doc.mergeSet doc (Doc.set b.model_dump "updated_at" (.dtime now))) k
              = Doc.get doc k) ∧
          Doc.get (Doc.mergeSet doc (Doc.set b.model_dump "updated_at" (.dtime now)))
              "updated_at" = some (.dtime now)) := by
  intro db now idStr oid hpar
  refine ⟨?_, ?_, ?_, ?_⟩
  · intro upd doc hn hid hf
    have h := setThenMerge_spec db.referral oid upd doc now hn hid hf
    refine ⟨?_, h.2.1, h.2.2.2⟩
    simp only [update_referral, hpar, h.1]
  · intro upd doc hn hid hf
    have h := setThenMerge_spec db.testresult oid upd doc now hn hid hf
    refine ⟨?_, h.2.1, h.2.2.2⟩
    simp only [update_result, hpar, h.1]
  · intro b doc hf
    have hn : ((b.model_dump).map Prod.fst).Nodup := by
      rw [patient_dump_keys]; decide
    have hid : Doc.get b.model_dump "_id" = none := by
      apply Doc.get_none_of_not_mem
      rw [patient_dump_keys]; decide
    have h := setThenMerge_spec db.patient oid b.model_dump doc now hn hid hf
    refine ⟨?_, ?_, h.2.2.2⟩
    · simp only [update_patient, hpar, h.1]
    · intro k hk
      have hk1 : k ≠ "updated_at" := by
        intro he; subst he; exact hk (by decide)
      have hk2 : Doc.get b.model_dump k = none := by
        apply Doc.get_none_of_not_mem
        rw [patient_dump_keys]
        intro hmem
        apply hk
        simp only [patientUpdateKeys, List.mem_cons, List.not_mem_nil, or_false] at hmem ⊢
        tauto
      exact h.2.1 k hk1 hk2
  · intro b doc hf
    have hn : ((b.model_dump).map Prod.fst).Nodup := by
      rw [test_dump_keys]; decide
    have hid : Doc.get b.model_dump "_id" = none := by
      apply Doc.get_none_of_not_mem
      rw [test_dump_keys]; decide
    have h := setThenMerge_spec db.testcatalog oid b.model_dump doc now hn hid hf
    refine ⟨?_, ?_, h.2.2.2⟩
    · simp only [update_test, hpar, h.1]
    · intro k hk
      have hk1 : k ≠ "updated_at" := by
        intro he; subst he; exact hk (by decide)
      have hk2 : Doc.get b.model_dump k = none := by
        apply Doc.get_none_of_not_mem
        rw [test_dump_keys]
        intro hmem
        apply hk
        simp only [testUpdateKeys, List.mem_cons, List.not_mem_nil, or_false] at hmem ⊢
        tauto
      exact h.2.1 k hk1 hk2

/-- A stored referral with a note, for the merge witness. -/
def refDoc1 : Doc :=
  [("_id", .oid 1), ("patient_id", .str (oidString 7)), ("status", .str "pending"),
   ("notes", .str "n1"), ("created_at", .dtime 2), ("updated_at", .dtime 2)]

/-- A raw partial update naming only the status field. -/
def refUpd1 : Doc := [("status", .str "received")]

/-- A store holding that one referral. -/
def dbRef : DB := { referral := [refDoc1], nextId := 2 }

/-- Witness for the amended C6 at a concrete referral: the unnamed notes
field keeps its value and updated_at is stamped. -/
theorem update_partial_merge_amended_check :
    findById (update_referral dbRef 5 oid1s refUpd1).1.referral 1
      = some (Doc.mergeSet refDoc1 (Doc.set refUpd1 "updated_at" (Value.dtime 5))) ∧
    Doc.get (Doc.mergeSet refDoc1 (Doc.set refUpd1 "updated_at" (Value.dtime 5))) "notes"
      = Doc.get refDoc1 "notes" ∧
    Doc.get (Doc.mergeSet refDoc1 (Doc.set refUpd1 "updated_at" (Value.dtime 5)))
        "updated_at" = some (Value.dtime 5) := by
  have h := (update_partial_merge_amended dbRef 5 oid1s 1 (by decide)).1 refUpd1 refDoc1
    (by decide) (by decide) (by decide)
  exact ⟨h.1, h.2.1 "notes" (by decide) (by decide), h.2.2⟩

/-- C7: for every resource type, an authorized update on a well-formed
id that is absent from the store answers 404 NotFound. -/
theorem update_nonexistent_notfound :
    ∀ (db : DB) (now : Nat) (idStr : String) (oid : Nat)
      (bp : PatientIn) (bt : TestCatalogIn) (ur ut : Doc),
      parseOid idStr = some oid →
      (findById db.patient oid = none →
        (update_patient db now idStr bp).2 = .httpError 404 "Patient not found") ∧
      (findById db.testcatalog oid = none →
        (update_test db now idStr bt).2 = .httpError 404 "Test not found") ∧
      (findById db.referral oid = none →
        (update_referral db now idStr ur).2 = .httpError 404 "Referral not found") ∧
      (findById db.testresult oid = none →
        (update_result db now idStr ut).2 = .httpError 404 "Result not found") := by
  intro db now idStr oid bp bt ur ut hpar
  refine ⟨?_, ?_, ?_, ?_⟩
  · intro h
    have hz : ∀ u, updateById db.patient oid u = db.patient :=
      fun u => updateById_of_findById_none _ _ u h
    simp [update_patient, hpar, hz, h]
  · intro h
    have hz : ∀ u, updateById db.testcatalog oid u = db.testcatalog :=
      fun u => updateById_of_findById_none _ _ u h
    simp [update_test, hpar, hz, h]
  · intro h
    have hz : ∀ u, updateById db.referral oid u = db.referral :=
      fun u => updateById_of_findById_none _ _ u h
    simp [update_referral, hpar, hz, h]
  · intro h
    have hz : ∀ u, updateById db.testresult oid u = db.testresult :=
      fun u => updateById_of_findById_none _ _ u h
    simp [update_result, hpar, hz, h]

/-- Witness for C7 on the empty store: every update of id 1 answers 404. -/
theorem update_nonexistent_notfound_check :
    (update_patient ({} : DB) 0 oid1s patBody).2 = .httpError 404 "Patient not found" ∧
    (update_test ({} : DB) 0 oid1s { code := "c", name := "n" }).2
      = .httpError 404 "Test not found" ∧
    (update_referral ({} : DB) 0 oid1s []).2 = .httpError 404 "Referral not found" ∧
    (update_result ({} : DB) 0 oid1s []).2 = .httpError 404 "Result not found" := by
  have h := update_nonexistent_notfound ({} : DB) 0 oid1s 1 patBody
    { code := "c", name := "n" } [] [] (by decide)
  exact ⟨h.1 rfl, h.2.1 rfl, h.2.2.1 rfl, h.2.2.2 rfl⟩

/-- The seeded document carries the admin role. -/
theorem seedAdminDoc_role (id now : Nat) :
    Doc.get (seedAdminDoc id now) "role" = some (.str "admin") := rfl

/-- One seed call leaves the admin count at its old value or raises it
from zero to one. -/
theorem countAdmins_seed (db : DB) (n : Nat) :
    countAdmins (seed_admin db n).1 = max (countAdmins db) 1 := by
  by_cases h : countAdmins db > 0
  · simp only [seed_admin, if_pos h]
    omega
  · have h0 : countAdmins db = 0 := by omega
    simp only [seed_admin, if_neg h]
    have hstep :
        countAdmins { db with user := db.user ++ [seedAdminDoc db.nextId n],
                              nextId := db.nextId + 1 }
          = countAdmins db + 1 := by
      simp [countAdmins, List.filter_append, seedAdminDoc_role]
    rw [hstep, h0]
    omega

/-- A seed call on a store that already has an admin is a no-op. -/
theorem seed_admin_exists (db : DB) (n : Nat) (h : countAdmins db > 0) :
    seed_admin db n = (db, [("message", .str "Admin exists")]) := by
  simp [seed_admin, h]

/-- C8: seed-admin is idempotent: with an admin already present it is a
no-op reporting existence, a second call after any first call is such a
no-op, and two calls in sequence never leave more than one freshly
created admin (the final count is the old count, or one if it was zero). -/
theorem seed_admin_idempotent :
    ∀ (db : DB) (n1 n2 : Nat),
      (countAdmins db > 0 →
        seed_admin db n1 = (db, [("message", .str "Admin exists")])) ∧
      seed_admin (seed_admin db n1).1 n2
        = ((seed_admin db n1).1, [("message", .str "Admin exists")]) ∧
      countAdmins (seed_admin (seed_admin db n1).1 n2).1 = max (countAdmins db) 1 := by
  intro db n1 n2
  have hpos : countAdmins (seed_admin db n1).1 > 0 := by
    rw [countAdmins_seed]; omega
  have hsecond := seed_admin_exists (seed_admin db n1).1 n2 hpos
  refine ⟨fun h => seed_admin_exists db n1 h, hsecond, ?_⟩
  rw [hsecond]
  exact countAdmins_seed db n1

/-- A store already holding one admin user. -/
def dbAdmin : DB := { user := [seedAdminDoc 1 0], nextId := 2 }

/-- Witness for C8: on a store with an admin the seed call is a no-op,
and two calls starting from it keep the admin count at one. -/
theorem seed_admin_idempotent_check :
    seed_admin dbAdmin 4 = (dbAdmin, [("message", Value.str "Admin exists")]) ∧
    seed_admin (seed_admin dbAdmin 4).1 6
      = ((seed_admin dbAdmin 4).1, [("message", Value.str "Admin exists")]) ∧
    countAdmins (seed_admin (seed_admin dbAdmin 4).1 6).1 = max (countAdmins dbAdmin) 1 := by
  have h := seed_admin_idempotent dbAdmin 4 6
  exact ⟨h.1 (by decide), h.2.1, h.2.2⟩

/-- C9: updating a test result rewrites only the testresult collection:
the referral collection is exactly what it was, while the merged result
document carries every updated field and the fresh updated_at stamp. -/
theorem update_result_frame :
    ∀ (db : DB) (now : Nat) (idStr : String) (oid : Nat) (upd doc : Doc),
      parseOid idStr = some oid →
      (upd.map Prod.fst).Nodup →
      Doc.get upd "_id" = none →
      findById db.testresult oid = some doc →
      (update_result db now idStr upd).1.referral = db.referral ∧
      findById (update_result db now idStr upd).1.testresult oid
        = some (Doc.mergeSet doc (Doc.set upd "updated_at" (.dtime now))) ∧
      (∀ k v, k ≠ "updated_at" → Doc.get upd k = some v →
        Doc.get (Doc.mergeSet doc (Doc.set upd "updated_at" (.dtime now))) k = some v) ∧
      Doc.get (Doc.mergeSet doc (Doc.set upd "updated_at" (.dtime now))) "updated_at"
        = some (.dtime now) := by
  intro db now idStr oid upd doc hpar hn hid hf
  have h := setThenMerge_spec db.testresult oid upd doc now hn hid hf
  refine ⟨?_, ?_, h.2.2.1, h.2.2.2⟩
  · simp only [update_result, hpar, h.1]
  · simp only [update_result, hpar, h.1]

/-- A stored pending test result, for the frame witness. -/
def resDoc1 : Doc :=
  [("_id", .oid 1), ("referral_id", .str (oidString 3)), ("test_code", .str "cbc"),
   ("value", Value.null), ("status", .str "pending"),
   ("created_at", .dtime 2), ("updated_at", .dtime 2)]

/-- The verification update of the section 8 scenario. -/
def resUpd1 : Doc :=
  [("status", .str "verified"), ("reviewed_by", .str (oidString 4)),
   ("reviewed_at", .str "2024-01-01T00:00:00")]

/-- A store holding one referral and that one result. -/
def dbRes : DB := { referral := [refDoc1], testresult := [resDoc1], nextId := 2 }

/-- Witness for C9: verifying the result leaves the referral collection
untouched and the result reflects status, reviewer and stamp. -/
theorem update_result_frame_check :
    (update_result dbRes 9 oid1s resUpd1).1.referral = dbRes.referral ∧
    findById (update_result dbRes 9 oid1s resUpd1).1.testresult 1
      = some (Doc.mergeSet resDoc1 (Doc.set resUpd1 "updated_at" (Value.dtime 9))) ∧
    Doc.get (Doc.mergeSet resDoc1 (Doc.set resUpd1 "updated_at" (Value.dtime 9))) "status"
      = some (Value.str "verified") ∧
    Doc.get (Doc.mergeSet resDoc1 (Doc.set resUpd1 "updated_at" (Value.dtime 9)))
        "updated_at" = some (Value.dtime 9) := by
  have h := update_result_frame dbRes 9 oid1s 1 resUpd1 resDoc1
    (by decide) (by decide) (by decide) (by decide)
  exact ⟨h.1, h.2.1, h.2.2.1 "status" (Value.str "verified") (by decide) (by decide), h.2.2.2⟩

/-- A successfully decoded signed token yields exactly its own payload. -/
theorem jwt_decode_signed_eq (secret : String) (now : Nat) (p q : Payload) (sig : Nat)
    (h : jwt_decode secret now (.signed p sig) = some q) : q = p := by
  by_cases hs : sig = signPayload secret p
  · by_cases he : p.exp < now
    · simp [jwt_decode, hs, he] at h
    · have hpq : p = q := by simpa [jwt_decode, hs, he] using h
      exact hpq.symm
  · simp [jwt_decode, hs] at h

/-- C2: access resolution answers the generic 401 whenever the token is
malformed, its signature does not verify, its expiry is in the past
(with verification failing there even on a correctly signed payload),
a subject or role claim is missing, the user behind the subject id no
longer exists, or that user is explicitly inactive. -/
theorem auth_unauthorized_conditions :
    ∀ (db : DB) (secret : String) (now : Nat),
      (∀ raw, get_current_user db secret now (.malformed raw) = credentialsError) ∧
      (∀ (p : Payload) (sig : Nat), sig ≠ signPayload secret p →
        get_current_user db secret now (.signed p sig) = credentialsError) ∧
      (∀ (p : Payload) (sig : Nat), p.exp < now →
        jwt_decode secret now (.signed p sig) = none ∧
        get_current_user db secret now (.signed p sig) = credentialsError) ∧
      (∀ (p : Payload) (sig : Nat), p.sub = none ∨ p.role = none →
        get_current_user db secret now (.signed p sig) = credentialsError) ∧
      (∀ (p : Payload) (sig : Nat) (uid : String) (oid : Nat),
        p.sub = some uid → parseOid uid = some oid → findById db.user oid = none →
        get_current_user db secret now (.signed p sig) = credentialsError) ∧
      (∀ (p : Payload) (sig : Nat) (uid : String) (oid : Nat) (u : Doc),
        p.sub = some uid → parseOid uid = some oid → findById db.user oid = some u →
        Doc.get u "is_active" = some (.bool false) →
        get_current_user db secret now (.signed p sig) = credentialsError) := by
  intro db secret now
  refine ⟨fun raw => rfl, ?_, ?_, ?_, ?_, ?_⟩
  · intro p sig h
    simp [get_current_user, jwt_decode, h]
  · intro p sig h
    have hif : (p.exp < now) = True := eq_true h
    have hdec : jwt_decode secret now (.signed p sig) = none := by
      by_cases hs : sig = signPayload secret p
      · simp [jwt_decode, hs, hif]
      · simp [jwt_decode, hs]
    exact ⟨hdec, by simp [get_current_user, hdec]⟩
  · intro p sig h
    rcases hdec : jwt_decode secret now (.signed p sig) with _ | q
    · simp [get_current_user, hdec]
    · have hq : q = p := jwt_decode_signed_eq secret now p q sig hdec
      subst hq
      rcases h with h | h
      · simp [get_current_user, hdec, h]
      · cases hsub : q.sub <;> simp [get_current_user, hdec, h, hsub]
  · intro p sig uid oid hsub hoid hfind
    rcases hdec : jwt_decode secret now (.signed p sig) with _ | q
    · simp [get_current_user, hdec]
    · have hq : q = p := jwt_decode_signed_eq secret now p q sig hdec
      subst hq
      cases hrole : q.role <;>
        simp [get_current_user, hdec, hsub, hrole, hoid, hfind]
  · intro p sig uid oid u hsub hoid hfind hact
    rcases hdec : jwt_decode secret now (.signed p sig) with _ | q
    · simp [get_current_user, hdec]
    · have hq : q = p := jwt_decode_signed_eq secret now p q sig hdec
      subst hq
      cases hrole : q.role <;>
        simp [get_current_user, hdec, hsub, hrole, hoid, hfind, isActiveCheck,
          hact, truthy]

/-- An explicitly deactivated stored user. -/
def inactiveUser : Doc :=
  [("_id", .oid 5), ("name", .str "Bob"), ("email", .str "b@x.y"),
   ("password_hash", .str (hash_password "pw")), ("role", .str "viewer"),
   ("is_active", .bool false)]

/-- A store whose only user is the inactive one. -/
def dbAuth : DB := { user := [inactiveUser], nextId := 6 }

/-- A payload naming the stored user, far from expiry at instant 10. -/
def payloadB : Payload := { sub := some (oidString 5), role := some "viewer", exp := 99 }

/-- A payload naming a user id that is absent from the store. -/
def payloadM : Payload := { sub := some (oidString 7), role := some "viewer", exp := 99 }

/-- A payload with the expiry already in the past at instant 10. -/
def payloadE : Payload := { sub := some (oidString 5), role := some "viewer", exp := 3 }

/-- Witness for C2: at instant 10 against the concrete store, each
failure condition answers the generic 401, and the correctly signed but
expired token fails decoding. -/
theorem auth_unauthorized_conditions_check :
    get_current_user dbAuth "k" 10 (.malformed "zz") = credentialsError ∧
    get_current_user dbAuth "k" 10 (.signed payloadB (signPayload "k" payloadB + 1))
      = credentialsError ∧
    jwt_decode "k" 10 (.signed payloadE (signPayload "k" payloadE)) = none ∧
    get_current_user dbAuth "k" 10 (.signed payloadE (signPayload "k" payloadE))
      = credentialsError ∧
    get_current_user dbAuth "k" 10
        (.signed { sub := none, role := some "viewer", exp := 99 } 0)
      = credentialsError ∧
    get_current_user dbAuth "k" 10 (.signed payloadM (signPayload "k" payloadM))
      = credentialsError ∧
    get_current_user dbAuth "k" 10 (.signed payloadB (signPayload "k" payloadB))
      = credentialsError := by
  have h := auth_unauthorized_conditions dbAuth "k" 10
  have hexp := h.2.2.1 payloadE (signPayload "k" payloadE) (by decide)
  refine ⟨h.1 "zz", h.2.1 payloadB _ (by omega), hexp.1, hexp.2, ?_, ?_, ?_⟩
  · exact h.2.2.2.1 { sub := none, role := some "viewer", exp := 99 } 0 (Or.inl rfl)
  · exact h.2.2.2.2.1 payloadM _ (oidString 7) 7 rfl (by decide) (by decide)
  · exact h.2.2.2.2.2 payloadB _ (oidString 5) 5 inactiveUser rfl (by decide)
      (by decide) (by decide)

/-- C10: with a decodable unexpired token naming a stored user, a user
document that lacks the is_active field entirely is treated as active
and the request is authorized, while an is_active field explicitly false
is rejected with the generic 401. -/
theorem missing_is_active_defaults_active :
    ∀ (db : DB) (secret : String) (now : Nat) (p : Payload) (uid r : String)
      (oid : Nat) (u : Doc),
      p.sub = some uid → p.role = some r → ¬ p.exp < now →
      parseOid uid = some oid → findById db.user oid = some u →
      (Doc.get u "is_active" = none →
        get_current_user db secret now (jwt_encode secret p) = .ok (serialize_doc u)) ∧
      (Doc.get u "is_active" = some (.bool false) →
        get_current_user db secret now (jwt_encode secret p) = credentialsError) := by
  intro db secret now p uid r oid u hsub hrole he hoid hfind
  have hif : (p.exp < now) = False := eq_false he
  have hdec : jwt_decode secret now (jwt_encode secret p) = some p := by
    simp [jwt_decode, jwt_encode, hif]
  constructor
  · intro hact
    simp [get_current_user, hdec, hsub, hrole, hoid, hfind, isActiveCheck, hact, truthy]
  · intro hact
    simp [get_current_user, hdec, hsub, hrole, hoid, hfind, isActiveCheck, hact, truthy]

/-- A stored user document with no is_active field at all. -/
def legacyUser : Doc :=
  [("_id", .oid 6), ("name", .str "Mo"), ("email", .str "m@x.y"),
   ("password_hash", .str (hash_password "pw")), ("role", .str "lab_tech")]

/-- A store holding the legacy user and the inactive user. -/
def dbFlags : DB := { user := [legacyUser, inactiveUser], nextId := 7 }

/-- A valid payload for the legacy user at instant 10. -/
def payloadL : Payload := { sub := some (oidString 6), role := some "lab_tech", exp := 99 }

/-- Witness for C10: the legacy user without the flag is authorized, the
explicitly inactive user is rejected. -/
theorem missing_is_active_defaults_active_check :
    get_current_user dbFlags "k" 10 (jwt_encode "k" payloadL)
      = .ok (serialize_doc legacyUser) ∧
    get_current_user dbFlags "k" 10 (jwt_encode "k" payloadB) = credentialsError := by
  have h1 := (missing_is_active_defaults_active dbFlags "k" 10 payloadL (oidString 6)
    "lab_tech" 6 legacyUser rfl rfl (by decide) (by decide) (by decide)).1 (by decide)
  have h2 := (missing_is_active_defaults_active dbFlags "k" 10 payloadB (oidString 5)
    "viewer" 5 inactiveUser rfl rfl (by decide) (by decide) (by decide)).2 (by decide)
  exact ⟨h1, h2⟩

end RefLab
